import Mathlib

/-!
Verification of `sirfshampoo` (structured inverse-free and root-free Shampoo
optimizer) against its natural-language specification.

The development shallowly embeds `src/sirfshampoo/optimizer.py`:
* the parameter grouper `_one_param_group_per_preconditioner`,
* the hyperparameter validator `_verify_hyperparameters`,
* the preconditioner state initializer `_initialize_preconditioner`,
* the preconditioner update `_update_preconditioner`,
* the gradient preconditioning `_precondition_gradient`,
* the per-parameter update loop `_step` and the top-level `step`.

Tensors are modelled over `ℚ`; machine floating point is abstracted to exact
rational arithmetic (the claims under scrutiny are structural / algebraic,
not about rounding).  The `TensorCombiner` (module `sirfshampoo.combiner`)
is not part of the sources under verification; following the spec's Reshaper
contract it is a bijection between a group's per-parameter tensors and a
single 2-D array, so group-level tensor data is represented directly in the
grouped (2-D) coordinates where needed.
-/

namespace SIRFShampoo

/-- A neural-network parameter as the grouper sees it: its identity
(`data_ptr` in the source, modelled as a natural number id), its shape,
and its `requires_grad` flag. -/
structure Param where
  id : ℕ
  shape : List ℕ
  requires_grad : Bool
  deriving DecidableEq, Repr, Inhabited

/-- Update-cadence `T`: a positive integer interval or a predicate on the
global step (a Python callable). -/
inductive TSched where
  | int (t : ℕ)
  | pred (f : ℕ → Bool)

instance : Inhabited TSched := ⟨TSched.int 1⟩

/-- The resolved hyperparameter record of one parameter group. -/
structure Hyper where
  beta1 : ℚ
  beta2 : ℚ
  alpha1 : ℚ
  alpha2 : ℚ
  lam : ℚ
  kappa : ℚ
  T : TSched

instance : Inhabited Hyper := ⟨⟨0, 0, 0, 0, 0, 0, TSched.int 1⟩⟩

/-- A parameter group: an ordered list of parameters plus the group's
hyperparameter record (the non-`params` entries of the group dict). -/
structure PGroup where
  params : List Param
  hyper : Hyper

instance : Inhabited PGroup := ⟨⟨[], default⟩⟩

/-- A module of the host model's module tree, as relevant to the grouper:
its directly-owned parameters and whether it is a leaf
(`not list(layer.children())`). -/
structure PyModule where
  params : List Param
  leaf : Bool

/-- The number of dimensions of a parameter (`p.ndim`). -/
def ndim (p : Param) : ℕ := p.shape.length

/-- `all_ids`: the set of `data_ptr`s of all parameters appearing in the
original parameter groups. -/
def allIdsOf (groups : List PGroup) : Finset ℕ :=
  (((groups.map (·.params)).flatten).map (·.id)).toFinset

/-- `param_to_group`: the dict mapping a parameter id to the index of the
original group containing it.  Built by a comprehension over groups in
order, so a later group overwrites an earlier one (last wins). -/
def param_to_group (groups : List PGroup) (pid : ℕ) : ℕ :=
  (List.range groups.length).foldl
    (fun acc i =>
      if ((groups.getD i default).params.map (·.id)).contains pid then i else acc)
    0

/-- The trainable, active parameters of a layer
(`[p for p in layer.parameters() if p.requires_grad and p.data_ptr() in all_ids]`). -/
def qualifying (allIds : Finset ℕ) (m : PyModule) : List Param :=
  m.params.filter (fun p => p.requires_grad && decide (p.id ∈ allIds))

/-- Value of the source expression `{p.shape for p in params} == 1`
(optimizer.py line 219): it compares a Python `set` with the integer `1`,
and in Python a set never equals an integer, so the expression is always
`False`, whatever the shapes are. -/
def pySetEqOne (_shapes : List (List ℕ)) : Bool := false

/-- The list of joint-treatment buckets contributed by one layer: either the
single bucket of all its qualifying parameters (the two merge branches) or
one singleton bucket per parameter (the fallback branch). -/
def layerBuckets (groups : List PGroup) (allIds : Finset ℕ) (m : PyModule) :
    List (List Param) :=
  let ps := qualifying allIds m
  let in_param_groups := ((ps.map (fun p => param_to_group groups p.id)).dedup).length
  if pySetEqOne (ps.map (·.shape)) && (in_param_groups == 1) then
    [ps]
  else if (ps.length == 2)
      && (([2, 3, 4, 5] : List ℕ).contains (ndim (ps.getD 0 default)))
      && (ndim (ps.getD 1 default) == 1)
      && ((ps.getD 0 default).shape.headD 0 == (ps.getD 1 default).shape.headD 0)
      && (in_param_groups == 1) then
    [ps]
  else
    ps.map (fun p => [p])

/-- Embedding of `SIRFShampoo._one_param_group_per_preconditioner`: rewrite
the original parameter groups into one group per preconditioner.  The model
is given as the list of modules of the module tree; `layers` keeps the leaf
modules owning at least one parameter and at least one trainable parameter
of the active set.  Each layer contributes its buckets (`treat_jointly` in
the source); the processed ids (in every branch, exactly the ids of the
layer's qualifying parameters) must cover `all_ids`, else a `ValueError` is
raised.  Each new group inherits the dict of the original group of its
first parameter. -/
def one_param_group_per_preconditioner (model : List PyModule)
    (groups : List PGroup) : Except String (List PGroup) :=
  let allIds := allIdsOf groups
  let layers := model.filter (fun m =>
    m.leaf && !m.params.isEmpty
      && m.params.any (fun p => p.requires_grad && decide (p.id ∈ allIds)))
  let treat_jointly := (layers.map (layerBuckets groups allIds)).flatten
  let processed : Finset ℕ := ((treat_jointly.flatten).map (·.id)).toFinset
  if processed ≠ allIds then
    Except.error "Parameter group rewriting lost parameters."
  else
    Except.ok (treat_jointly.map (fun ps =>
      ⟨ps, (groups.getD (param_to_group groups ((ps.getD 0 default).id)) default).hyper⟩))

end SIRFShampoo

namespace SIRFShampoo

/-- The default hyperparameter record of the constructor
(`beta1=0.001, beta2=0.01, alpha1=0.9, alpha2=0.5, lam=0.001, kappa=0.0, T=1`). -/
def hDef : Hyper := ⟨1/1000, 1/100, 9/10, 1/2, 1/1000, 0, TSched.int 1⟩

/-- A normalization-layer weight: trainable, shape `(2,)`. -/
def p0 : Param := ⟨0, [2], true⟩

/-- A normalization-layer bias: trainable, shape `(2,)`, same shape as `p0`. -/
def p1 : Param := ⟨1, [2], true⟩

/-- A leaf layer holding the two equal-shape parameters `p0` and `p1`. -/
def normLayer : PyModule := ⟨[p0, p1], true⟩

/-- A single original hyperparameter group containing `p0` and `p1`. -/
def normGroups : List PGroup := [⟨[p0, p1], hDef⟩]

/-- C1: the claim says a layer whose trainable, active parameters all have
identical shape and fall in exactly one original group is merged into one
JointGroup.  Evaluating the embedded grouper on such a layer (two trainable
parameters of shape `(2,)` in one original group) shows the code instead
splits them into two singleton groups: the source condition
`{p.shape for p in params} == 1` compares a set with the integer `1` and is
always `False` in Python, so the equal-shape merge branch can never fire,
contradicting both the spec and the code's own comment
"treat jointly if all have the same shape (e.g. weight+bias of norm layer)". -/
theorem claim_C1_equal_shape_layer_not_merged :
    p0.shape = p1.shape ∧ normGroups.length = 1 ∧
      one_param_group_per_preconditioner [normLayer] normGroups
        = Except.ok [⟨[p0], hDef⟩, ⟨[p1], hDef⟩] :=
  ⟨rfl, rfl, rfl⟩

/-- A parameter owned by two distinct leaf layers (weight tying). -/
def pShared : Param := ⟨0, [2, 2], true⟩

/-- A model in which two leaf layers own the same parameter `pShared`. -/
def sharedModel : List PyModule := [⟨[pShared], true⟩, ⟨[pShared], true⟩]

/-- The single original group of the shared-parameter model. -/
def sharedGroups : List PGroup := [⟨[pShared], hDef⟩]

/-- C3, counterexample: the claim states that the produced JointGroups cover
the original active parameter set with no parameter duplicated, and that any
violation is a fatal construction error.  On a model where one parameter is
owned by two leaf layers, construction succeeds (no error) yet the parameter
with id `0` appears in two distinct produced JointGroups — the id sequence
covered by the output is `[0, 0]` — so duplication happens and is not
detected: the postcondition check only compares the *set* of processed ids
with the *set* of original ids. -/
theorem claim_C3_counterexample_shared_param_duplicated :
    one_param_group_per_preconditioner sharedModel sharedGroups
      = Except.ok [⟨[pShared], hDef⟩, ⟨[pShared], hDef⟩] ∧
    ((([⟨[pShared], hDef⟩, ⟨[pShared], hDef⟩] : List PGroup).map
        (·.params)).flatten).map (·.id) = [0, 0] ∧
    allIdsOf sharedGroups = {0} :=
  ⟨rfl, rfl, rfl⟩

/-- C3, amended: whenever the grouper succeeds, the *set* of parameter ids
covered by the produced JointGroups equals the original active id set (so no
parameter is ever lost without a fatal `ValueError` at construction);
duplication of a parameter owned by more than one leaf layer is, however,
not detected. -/
theorem claim_C3_amended_coverage (model : List PyModule) (groups : List PGroup)
    (out : List PGroup)
    (h : one_param_group_per_preconditioner model groups = Except.ok out) :
    (((out.map (·.params)).flatten).map (·.id)).toFinset = allIdsOf groups := by
  simp only [one_param_group_per_preconditioner] at h
  split at h
  · exact absurd h (by simp)
  · rename_i hne
    rw [not_not] at hne
    injection h with h2
    subst h2
    rw [List.map_map]
    exact (congrArg (fun l : List (List Param) =>
      ((List.flatten l).map (fun x => Param.id x)).toFinset) (List.map_id' _)).trans hne

/-- Witness for C3's amended theorem: on a concrete linear layer
(weight `(4,5)` + bias `(4,)`, one original group) the grouper succeeds and
the covered id set equals the original id set. -/
theorem claim_C3_amended_coverage_witness :
    ((([(⟨[⟨10, [4, 5], true⟩, ⟨11, [4], true⟩], hDef⟩ : PGroup)].map
        (·.params)).flatten).map (·.id)).toFinset
      = allIdsOf [⟨[⟨10, [4, 5], true⟩, ⟨11, [4], true⟩], hDef⟩] :=
  claim_C3_amended_coverage
    [⟨[⟨10, [4, 5], true⟩, ⟨11, [4], true⟩], true⟩]
    [⟨[⟨10, [4, 5], true⟩, ⟨11, [4], true⟩], hDef⟩]
    [⟨[⟨10, [4, 5], true⟩, ⟨11, [4], true⟩], hDef⟩]
    rfl

end SIRFShampoo

namespace SIRFShampoo

open Matrix

/-- Dense rational matrices: the model of a `torch` 2-D tensor. -/
abbrev Mat (m n : ℕ) := Matrix (Fin m) (Fin n) ℚ

/-- Flat rational vectors: the model of a parameter tensor's storage. -/
abbrev Vec (n : ℕ) := Fin n → ℚ

/-- String the source's f-string prints for the stored batch-size value
(`None` when the forward hook has not run yet, the integer otherwise). -/
def pyStrOptInt : Option ℤ → String
  | none => "None"
  | some b => toString b

/-- Embedding of `SIRFShampoo._get_current_batch_size`: return the stored
batch size if it is a positive integer, else raise a `RuntimeError` naming
the offending value. -/
def get_current_batch_size (bs : Option ℤ) : Except String ℤ :=
  match bs with
  | some b =>
    if 0 < b then Except.ok b
    else Except.error ("Batch size is not a positive integer: "
      ++ pyStrOptInt (some b) ++ ".")
  | none => Except.error ("Batch size is not a positive integer: "
      ++ pyStrOptInt none ++ ".")

/-- C7: whenever the stored batch size is read, a positive integer is
returned as-is, and any other stored value (a non-positive integer, or the
unset value `None`) raises a fatal runtime error whose message identifies
the offending value. -/
theorem claim_C7_batch_size_read :
    (∀ b : ℤ, 0 < b → get_current_batch_size (some b) = Except.ok b)
    ∧ (∀ b : ℤ, ¬ 0 < b → get_current_batch_size (some b)
        = Except.error ("Batch size is not a positive integer: " ++ toString b ++ "."))
    ∧ get_current_batch_size none
        = Except.error "Batch size is not a positive integer: None." := by
  refine ⟨fun b hb => ?_, fun b hb => ?_, rfl⟩ <;>
    simp [get_current_batch_size, pyStrOptInt, hb]

/-- Witness for C7 at the concrete stored values `4` and `0`. -/
theorem claim_C7_batch_size_read_witness :
    get_current_batch_size (some 4) = Except.ok 4
    ∧ get_current_batch_size (some 0)
        = Except.error ("Batch size is not a positive integer: " ++ toString (0 : ℤ) ++ ".") :=
  ⟨claim_C7_batch_size_read.1 4 (by decide),
   claim_C7_batch_size_read.2.1 0 (by decide)⟩

/-- Embedding of the body of the per-parameter loop of `SIRFShampoo._step`
for one parameter `p` with computed update `u` and (possibly absent)
momentum buffer: weight decay (`p_step.add_(p.data, alpha=kappa)` when
`kappa != 0`), then classical momentum (buffer created as zeros on first
use, `buffer.mul_(alpha1).add_(p_step)`, `p_step = buffer` — only when
`alpha1 != 0`), then `p.data.add_(p_step, alpha=-beta1)`.  Stated over any
`ℚ`-module so it covers both per-parameter tensors and grouped tensors. -/
def paramStep {V : Type} [AddCommGroup V] [Module ℚ V]
    (kappa alpha1 beta1 : ℚ) (p u : V) (buf : Option V) : V × Option V :=
  let u1 := if kappa ≠ 0 then u + kappa • p else u
  if alpha1 ≠ 0 then
    let b1 := alpha1 • buf.getD 0 + u1
    (p + (-beta1) • b1, some b1)
  else
    (p + (-beta1) • u1, buf)

/-- C6: the per-parameter update performs, in order, weight decay, then
momentum accumulation (buffer zero-initialized on first use), then the
learning-rate step `p - beta1 * u`; in particular the weight-decay term
`kappa * p` is accumulated into the momentum buffer (it is added before the
momentum step).  The conditional weight-decay branch is equivalent to the
unconditional formula since `kappa = 0` makes the added term vanish. -/
theorem claim_C6_parameter_update (n : ℕ) (kappa alpha1 beta1 : ℚ)
    (p u : Vec n) (buf : Option (Vec n)) :
    paramStep kappa alpha1 beta1 p u buf =
      if alpha1 = 0 then (p - beta1 • (u + kappa • p), buf)
      else
        (p - beta1 • (alpha1 • buf.getD 0 + (u + kappa • p)),
          some (alpha1 • buf.getD 0 + (u + kappa • p))) := by
  unfold paramStep
  by_cases hk : kappa = 0 <;> by_cases ha : alpha1 = 0 <;>
    simp [hk, ha, sub_eq_add_neg, neg_smul] <;> abel

/-- The pure computation of `SIRFShampoo._update_preconditioner` after the
skip and factor-count checks, translated from the in-place tensor program:
`CT_G_K = C.T @ G @ K`, the two traces, `m_C.mul_(alpha2)` followed by
`m_C.add_(m_C_step, alpha=0.5/dim_K)` (and symmetrically for `m_K`, both
momenta computed from the factors before either factor changes), then
`C.add_(m_C, alpha=-beta2)` and `K.add_(m_K, alpha=-beta2)`.
Returns `(C', K', m_C', m_K')`. -/
def update_preconditioner_math (alpha2 beta2 lam B : ℚ) {dC dK : ℕ}
    (C : Mat dC dC) (K : Mat dK dK) (mC : Mat dC dC) (mK : Mat dK dK)
    (G : Mat dC dK) : Mat dC dC × Mat dK dK × Mat dC dC × Mat dK dK :=
  let gamma : ℚ := 1
  let CT_G_K := Cᵀ * G * K
  let tr_KKT := Matrix.trace (K * Kᵀ)
  let tr_CCT := Matrix.trace (C * Cᵀ)
  let m_C_step := B • (CT_G_K * CT_G_Kᵀ) + (lam * tr_KKT) • (Cᵀ * C)
      - ((dK : ℚ) * gamma) • (1 : Mat dC dC)
  let mC1 := alpha2 • mC + ((0.5 : ℚ) / (dK : ℚ)) • m_C_step
  let m_K_step := B • (CT_G_Kᵀ * CT_G_K) + (lam * tr_CCT) • (Kᵀ * K)
      - ((dC : ℚ) * gamma) • (1 : Mat dK dK)
  let mK1 := alpha2 • mK + ((0.5 : ℚ) / (dC : ℚ)) • m_K_step
  (C + (-beta2) • mC1, K + (-beta2) • mK1, mC1, mK1)

/-- The preconditioner update exactly as the spec's pseudocode writes it:
`S = C^T@G@K`;
`m_C = alpha2*m_C + (0.5/d_K)*(B*S@S^T + lam*trace(K@K^T)*C^T@C - d_K*I)`;
`m_K = alpha2*m_K + (0.5/d_C)*(B*S^T@S + lam*trace(C@C^T)*K^T@K - d_C*I)`;
`C = C - beta2*m_C`; `K = K - beta2*m_K`. -/
def spec_preconditioner_update (alpha2 beta2 lam B : ℚ) {dC dK : ℕ}
    (C : Mat dC dC) (K : Mat dK dK) (mC : Mat dC dC) (mK : Mat dK dK)
    (G : Mat dC dK) : Mat dC dC × Mat dK dK × Mat dC dC × Mat dK dK :=
  let S := Cᵀ * G * K
  let mC' := alpha2 • mC + ((0.5 : ℚ) / (dK : ℚ)) •
      (B • (S * Sᵀ) + (lam * Matrix.trace (K * Kᵀ)) • (Cᵀ * C)
        - (dK : ℚ) • (1 : Mat dC dC))
  let mK' := alpha2 • mK + ((0.5 : ℚ) / (dC : ℚ)) •
      (B • (Sᵀ * S) + (lam * Matrix.trace (C * Cᵀ)) • (Kᵀ * K)
        - (dC : ℚ) • (1 : Mat dK dK))
  (C - beta2 • mC', K - beta2 • mK', mC', mK')

/-- C2: a non-skipped preconditioner update computes exactly the new state
the spec prescribes — with `S = C^T@G@K`, the new momenta are
`alpha2*m + (0.5/d)*(B·SSᵀ-part + lam·trace-part - d·I)` formed from the
pre-update `C` and `K`, and the new factors are `C - beta2*m_C'` and
`K - beta2*m_K'`. -/
theorem claim_C2_update_matches_spec (alpha2 beta2 lam B : ℚ) {dC dK : ℕ}
    (C : Mat dC dC) (K : Mat dK dK) (mC : Mat dC dC) (mK : Mat dK dK)
    (G : Mat dC dK) :
    update_preconditioner_math alpha2 beta2 lam B C K mC mK G
      = spec_preconditioner_update alpha2 beta2 lam B C K mC mK G := by
  unfold update_preconditioner_math spec_preconditioner_update
  simp only [mul_one, Prod.mk.injEq, sub_eq_add_neg, neg_smul]

end SIRFShampoo

namespace SIRFShampoo

open Matrix

/-- Per-group optimizer data.  The two Kronecker-factor dimensions `dC`,
`dK` are the shape of the group's Reshaper-grouped tensor.

Modelled from the spec: `TensorCombiner` (module `sirfshampoo.combiner`,
not among the sources under verification) is, per the spec's Reshaper
contract, a bijection between the group's per-parameter tensors and one
2-D array of shape `(dC, dK)` with `ungroup` its exact inverse; the group's
parameter values `P`, gradient `G` and per-parameter momentum buffers `buf`
are therefore represented directly in the grouped 2-D coordinates (pointwise
and scalar operations commute with the bijection). -/
structure GroupData where
  dC : ℕ
  dK : ℕ
  hyper : Hyper
  P : Mat dC dK
  G : Mat dC dK
  buf : Option (Mat dC dK)
  C : Mat dC dC
  K : Mat dK dK
  mC : Mat dC dC
  mK : Mat dK dK

/-- The skip decision of `_update_preconditioner`:
`skip = not T(global_step) if callable(T) else global_step % T != 0`. -/
def skipUpdate (T : TSched) (global_step : ℕ) : Bool :=
  match T with
  | TSched.int t => global_step % t != 0
  | TSched.pred f => !f global_step

/-- The non-skipped part of `_update_preconditioner` applied to a group's
state, with batch size `B`. -/
def applyPrecondUpdate (B : ℚ) (g : GroupData) : GroupData :=
  let r := update_preconditioner_math g.hyper.alpha2 g.hyper.beta2 g.hyper.lam B
    g.C g.K g.mC g.mK g.G
  { g with C := r.1, K := r.2.1, mC := r.2.2.1, mK := r.2.2.2 }

/-- Embedding of `SIRFShampoo._update_preconditioner` for one group: first
the cadence decision (return with the state untouched when skipped), then
the batch-size read (which can raise), then the factor/momenta update. -/
def update_preconditioner (global_step : ℕ) (bs : Option ℤ) (g : GroupData) :
    Except String GroupData :=
  if skipUpdate g.hyper.T global_step then Except.ok g
  else
    match get_current_batch_size bs with
    | Except.error e => Except.error e
    | Except.ok B => Except.ok (applyPrecondUpdate (B : ℚ) g)

/-- C4: per group and step, the preconditioner state is written only by a
non-skipped update: when the cadence decision is `skip` the whole group
state (factors and momenta) is returned unchanged; when it is `update`, the
full update (after the batch-size read) is applied; and the skip decision
is exactly `global_step mod T != 0` for an integer `T` and `not
T(global_step)` for a predicate `T`. -/
theorem claim_C4_update_cadence (g : GroupData) (global_step : ℕ)
    (bs : Option ℤ) :
    (skipUpdate g.hyper.T global_step = true →
      update_preconditioner global_step bs g = Except.ok g)
    ∧ (skipUpdate g.hyper.T global_step = false →
      update_preconditioner global_step bs g =
        match get_current_batch_size bs with
        | Except.error e => Except.error e
        | Except.ok B => Except.ok (applyPrecondUpdate (B : ℚ) g))
    ∧ (∀ t, skipUpdate (TSched.int t) global_step = !(global_step % t == 0))
    ∧ (∀ f, skipUpdate (TSched.pred f) global_step = !f global_step) := by
  refine ⟨fun h => ?_, fun h => ?_, fun t => rfl, fun f => rfl⟩ <;>
    simp [update_preconditioner, h]

/-- A concrete group with `T = 2`, dimensions `1 × 1`, identity factors and
zero momenta. -/
def gModT2 : GroupData :=
  { dC := 1, dK := 1, hyper := { hDef with T := TSched.int 2 },
    P := 0, G := 0, buf := none, C := 1, K := 1, mC := 0, mK := 0 }

/-- Witness for C4: at global step `1` the group with `T = 2` is skipped and
its state is returned unchanged (even with an unset batch size). -/
theorem claim_C4_update_cadence_witness :
    update_preconditioner 1 none gModT2 = Except.ok gModT2 :=
  (claim_C4_update_cadence gModT2 1 none).1 rfl

/-- Embedding of `SIRFShampoo._initialize_preconditioner` for one group
whose Reshaper-grouped tensor has shape `(dC, dK)`: method `'identity'`
yields `[eye(d) for d in dims]`, method `'zero'` yields
`[zeros(d, d) for d in dims]`, anything else raises a `ValueError`. -/
def init_preconditioner (dC dK : ℕ) (method : String) :
    Except String (Mat dC dC × Mat dK dK) :=
  if method == "identity" then Except.ok (1, 1)
  else if method == "zero" then Except.ok (0, 0)
  else Except.error ("Unsupported preconditioning method: " ++ method
    ++ ". Supported methods are 'identity' and 'zero'.")

/-- Embedding of `SIRFShampoo._precondition_gradient` for one group:
`(C @ C.T) @ G @ (K @ K.T)` on the Reshaper-grouped gradient. -/
def precondition_gradient {dC dK : ℕ} (C : Mat dC dC) (K : Mat dK dK)
    (G : Mat dC dK) : Mat dC dK :=
  (C * Cᵀ) * G * (K * Kᵀ)

/-- C5: immediately after construction the factors are the identity of
sizes `dC` and `dK`, the momenta are zero of the same sizes, and
consequently preconditioning is the identity map on any grouped
gradient `G`. -/
theorem claim_C5_identity_init (dC dK : ℕ) (G : Mat dC dK) :
    init_preconditioner dC dK "identity" = Except.ok (1, 1)
    ∧ init_preconditioner dC dK "zero" = Except.ok (0, 0)
    ∧ precondition_gradient (1 : Mat dC dC) (1 : Mat dK dK) G = G := by
  refine ⟨rfl, rfl, ?_⟩
  simp [precondition_gradient, Matrix.transpose_one]

end SIRFShampoo

namespace SIRFShampoo

/-- Embedding of `SIRFShampoo._step` for one group: preconditioner update
(may skip, may raise on a bad batch size), then gradient preconditioning
with the (possibly updated) factors, then the parameter update with weight
decay, classical momentum and learning rate `beta1`. -/
def step_one_group (global_step : ℕ) (bs : Option ℤ) (g : GroupData) :
    Except String GroupData :=
  match update_preconditioner global_step bs g with
  | Except.error e => Except.error e
  | Except.ok g1 =>
    let u := precondition_gradient g1.C g1.K g1.G
    let r := paramStep g1.hyper.kappa g1.hyper.alpha1 g1.hyper.beta1 g1.P u g1.buf
    Except.ok { g1 with P := r.1, buf := r.2 }

/-- The whole optimizer state: the per-preconditioner groups, the global
step counter, and the stored batch-size value (`none` while unset). -/
structure OptState where
  groups : List GroupData
  global_step : ℕ
  batch_size : Option ℤ

/-- The `for group_idx, _ in enumerate(self.param_groups)` loop of `step`:
process the groups in order; a raised error propagates immediately, leaving
the earlier groups updated in place and the later ones untouched (the error
value carries the resulting group list). -/
def stepGroupsList (global_step : ℕ) (bs : Option ℤ) :
    List GroupData → Except (String × List GroupData) (List GroupData)
  | [] => Except.ok []
  | g :: rest =>
    match step_one_group global_step bs g with
    | Except.error e => Except.error (e, g :: rest)
    | Except.ok g1 =>
      match stepGroupsList global_step bs rest with
      | Except.error (e, rest1) => Except.error (e, g1 :: rest1)
      | Except.ok rest1 => Except.ok (g1 :: rest1)

/-- Embedding of `SIRFShampoo.step`: a non-`None` closure raises
`NotImplementedError` before anything else happens (the raised error
carries the state observed at the raise, here the untouched input state);
otherwise every group is processed in order and only then is the global
step counter incremented.  A mid-loop error propagates with the counter
not incremented. -/
def step (closure : Option Unit) (s : OptState) :
    Except (String × OptState) OptState :=
  match closure with
  | some _ => Except.error ("Closure is not supported.", s)
  | none =>
    match stepGroupsList s.global_step s.batch_size s.groups with
    | Except.error (e, gs1) => Except.error (e, { s with groups := gs1 })
    | Except.ok gs1 =>
      Except.ok { s with groups := gs1, global_step := s.global_step + 1 }

/-- C8: calling `step` with a non-`None` closure fails before any group is
processed and before the counter is incremented — the error carries the
input state unchanged; with closure `None`, when the group loop succeeds
the groups are processed at the *old* global step and the counter is
incremented exactly once, afterwards. -/
theorem claim_C8_closure_and_counter (s : OptState) :
    (∀ c : Unit, step (some c) s = Except.error ("Closure is not supported.", s))
    ∧ (∀ out, stepGroupsList s.global_step s.batch_size s.groups = Except.ok out →
        step none s = Except.ok ⟨out, s.global_step + 1, s.batch_size⟩) := by
  refine ⟨fun c => rfl, fun out h => ?_⟩
  simp [step, h]

/-- Witness for C8: on the state with no groups, counter `0` and unset
batch size, a closure call fails with the state unchanged, and a `None`
call increments the counter to `1`. -/
theorem claim_C8_closure_and_counter_witness :
    step (some ()) ⟨[], 0, none⟩
      = Except.error ("Closure is not supported.", ⟨[], 0, none⟩)
    ∧ step none ⟨[], 0, none⟩ = Except.ok ⟨[], 1, none⟩ :=
  ⟨(claim_C8_closure_and_counter ⟨[], 0, none⟩).1 (),
   (claim_C8_closure_and_counter ⟨[], 0, none⟩).2 [] rfl⟩

/-- When every group's cadence decision at the current global step is
`skip`, the group loop cannot fail: each group's step only preconditions
the gradient and updates the parameters, never reading the batch size. -/
theorem stepGroupsList_all_skip (global_step : ℕ) (bs : Option ℤ) :
    ∀ l : List GroupData,
      (∀ g ∈ l, skipUpdate g.hyper.T global_step = true) →
      ∃ out, stepGroupsList global_step bs l = Except.ok out
  | [], _ => ⟨[], rfl⟩
  | g :: rest, h => by
    have hg : update_preconditioner global_step bs g = Except.ok g := by
      simp [update_preconditioner, h g (List.mem_cons_self g rest)]
    obtain ⟨out, ho⟩ := stepGroupsList_all_skip global_step bs rest
      (fun g' hm => h g' (List.mem_cons_of_mem _ hm))
    have hstep : step_one_group global_step bs g
        = Except.ok { g with
            P := (paramStep g.hyper.kappa g.hyper.alpha1 g.hyper.beta1 g.P
              (precondition_gradient g.C g.K g.G) g.buf).1,
            buf := (paramStep g.hyper.kappa g.hyper.alpha1 g.hyper.beta1 g.P
              (precondition_gradient g.C g.K g.G) g.buf).2 } := by
      unfold step_one_group
      rw [hg]
    refine ⟨{ g with
        P := (paramStep g.hyper.kappa g.hyper.alpha1 g.hyper.beta1 g.P
          (precondition_gradient g.C g.K g.G) g.buf).1,
        buf := (paramStep g.hyper.kappa g.hyper.alpha1 g.hyper.beta1 g.P
          (precondition_gradient g.C g.K g.G) g.buf).2 } :: out, ?_⟩
    unfold stepGroupsList
    rw [hstep, ho]

/-- C10: if at some global step every group's cadence decision is `skip`,
a `None`-closure `step` call completes successfully and increments the
global step counter — whatever the stored batch-size value is, including
the unset value `None` — because the batch size is only read inside a
non-skipped preconditioner update. -/
theorem claim_C10_all_skip_step_succeeds (s : OptState)
    (h : ∀ g ∈ s.groups, skipUpdate g.hyper.T s.global_step = true) :
    ∃ out : List GroupData,
      step none s = Except.ok ⟨out, s.global_step + 1, s.batch_size⟩ := by
  obtain ⟨out, ho⟩ := stepGroupsList_all_skip s.global_step s.batch_size s.groups h
  exact ⟨out, by simp [step, ho]⟩

/-- Witness for C10: one group with `T = 2` at global step `1` and an unset
batch size — the step succeeds and the counter advances to `2`. -/
theorem claim_C10_all_skip_step_succeeds_witness :
    ∃ out : List GroupData,
      step none ⟨[gModT2], 1, none⟩ = Except.ok ⟨out, 2, none⟩ :=
  claim_C10_all_skip_step_succeeds ⟨[gModT2], 1, none⟩
    (by intro g hg; rw [List.mem_singleton] at hg; subst hg; rfl)

end SIRFShampoo

namespace SIRFShampoo

/-- Embedding of `SIRFShampoo._verify_hyperparameters`: the checks run in
source order over every rewritten group's resolved record; the first failed
check raises a `ValueError` whose message carries the offending list of
values.  (`T` must be a positive integer or a callable; a callable always
passes.) -/
def verify_hyperparameters (groups : List PGroup) : Except String Unit :=
  let beta1s := groups.map (·.hyper.beta1)
  if beta1s.any (fun b => decide (b ≤ 0)) then
    Except.error ("beta1-s must be non-negative. Got: " ++ toString beta1s ++ ".")
  else
  let beta2s := groups.map (·.hyper.beta2)
  if beta2s.any (fun b => decide (b < 0)) then
    Except.error ("beta2-s must be non-negative. Got: " ++ toString beta2s ++ ".")
  else
  let alpha1s := groups.map (·.hyper.alpha1)
  if !alpha1s.all (fun a => decide (0 ≤ a) && decide (a < 1)) then
    Except.error ("alpha1-s must be in [0, 1). Got: " ++ toString alpha1s ++ ".")
  else
  let alpha2s := groups.map (·.hyper.alpha2)
  if !alpha2s.all (fun a => decide (0 ≤ a) && decide (a < 1)) then
    Except.error ("alpha2-s must be in [0, 1). Got: " ++ toString alpha2s ++ ".")
  else
  let lams := groups.map (·.hyper.lam)
  if lams.any (fun l => decide (l < 0)) then
    Except.error ("lam-s must be non-negative. Got: " ++ toString lams ++ ".")
  else
  let kappas := groups.map (·.hyper.kappa)
  if kappas.any (fun k => decide (k < 0)) then
    Except.error ("kappa-s must be non-negative. Got: " ++ toString kappas ++ ".")
  else
  if !(groups.map (·.hyper.T)).all (fun t =>
      match t with
      | TSched.int k => decide (0 < k)
      | TSched.pred _ => true) then
    Except.error "T-s must be positive integers or callables."
  else Except.ok ()

/-- Embedding of the error-relevant pipeline of `SIRFShampoo.__init__`:
rewrite the parameter groups, initialize the preconditioner state (the
identity/zero initialization never fails, see `init_preconditioner`), then
verify the hyperparameters — all before any `step` can execute. -/
def construct_optimizer (model : List PyModule) (groups : List PGroup) :
    Except String (List PGroup) :=
  match one_param_group_per_preconditioner model groups with
  | Except.error e => Except.error e
  | Except.ok gs =>
    match verify_hyperparameters gs with
    | Except.error e => Except.error e
    | Except.ok _ => Except.ok gs

/-- C9: if any rewritten group's resolved `beta1` is `≤ 0` (in particular
`beta1 = 0`), construction fails with a `ValueError` naming the offending
values (the `beta1` check is the first one `_verify_hyperparameters` runs),
before any step executes. -/
theorem claim_C9_beta1_construction_error (model : List PyModule)
    (groups : List PGroup) (gs : List PGroup)
    (h1 : one_param_group_per_preconditioner model groups = Except.ok gs)
    (h2 : ∃ g ∈ gs, g.hyper.beta1 ≤ 0) :
    construct_optimizer model groups
      = Except.error ("beta1-s must be non-negative. Got: "
          ++ toString (gs.map (·.hyper.beta1)) ++ ".") := by
  obtain ⟨g, hm, hle⟩ := h2
  have hany : (gs.map (·.hyper.beta1)).any (fun b => decide (b ≤ 0)) = true := by
    rw [List.any_eq_true]
    exact ⟨g.hyper.beta1, List.mem_map.mpr ⟨g, hm, rfl⟩, by simpa using hle⟩
  simp [construct_optimizer, h1, verify_hyperparameters, hany]

/-- A trainable weight of shape `(3, 4)` for the C9 witness model. -/
def pW : Param := ⟨20, [3, 4], true⟩

/-- A hyperparameter record with the invalid value `beta1 = 0`. -/
def hBad : Hyper := { hDef with beta1 := 0 }

/-- Witness for C9: a one-layer model whose single group has `beta1 = 0`
makes construction fail with the error naming the offending values. -/
theorem claim_C9_beta1_construction_error_witness :
    construct_optimizer [⟨[pW], true⟩] [⟨[pW], hBad⟩]
      = Except.error ("beta1-s must be non-negative. Got: "
          ++ toString (([⟨[pW], hBad⟩] : List PGroup).map (·.hyper.beta1)) ++ ".") :=
  claim_C9_beta1_construction_error [⟨[pW], true⟩] [⟨[pW], hBad⟩] [⟨[pW], hBad⟩]
    rfl ⟨⟨[pW], hBad⟩, by simp, by norm_num [hBad, hDef]⟩

end SIRFShampoo
